import Mathlib

/-!
Verification development for the cell-count analytics pipeline
(`load_data.py`, `analysis.py`, `part4_query.py`).

The Python source is shallowly embedded: each table row becomes a Lean
structure, the SQLite store becomes an explicit `Database` value, each
ingestion step becomes a state transition returning `Option` (where the
source may raise), and the pandas/scipy pipeline becomes pure functions
over lists.  Floating-point results that can be NaN or infinite are
modelled by `PFloat`, rationals extended with the three IEEE special
values that the pipeline can actually produce.
-/

namespace CellCounts

/-! ## Data model (load_data.py) -/

/-- One raw row of the source file, as handed over by `csv.DictReader`:
every field is a string; numeric fields are parsed later. -/
structure CsvRow where
  subject : String
  project : String
  condition : String
  age : String
  sex : String
  treatment : String
  response : String
  sample : String
  sample_type : String
  time_from_treatment_start : String
  b_cell : String
  cd8_t_cell : String
  cd4_t_cell : String
  nk_cell : String
  monocyte : String
deriving Repr, DecidableEq

/-- A row of the `Subjects` table (load_data.py, initialize_database). -/
structure Subject where
  subject_id : String
  project : String
  condition : String
  age : Int
  sex : String
  treatment : String
  response : String
deriving Repr, DecidableEq

/-- A row of the `Samples` table (load_data.py, initialize_database). -/
structure Sample where
  sample_id : String
  subject_id : String
  sample_type : String
  time_from_treatment_start : Int
  b_cell : Int
  cd8_t_cell : Int
  cd4_t_cell : Int
  nk_cell : Int
  monocyte : Int
deriving Repr, DecidableEq

/-- The SQLite store: the set of created tables together with the rows of
the two tables this pipeline ever creates. -/
structure Database where
  tableNames : List String
  subjects : List Subject
  samples : List Sample
deriving Repr, DecidableEq

/-- The fresh store built by `initialize_database`: any previous file is
discarded and exactly the two tables `Subjects` and `Samples` are created,
both empty. -/
def initialize_database : Database :=
  { tableNames := ["Subjects", "Samples"], subjects := [], samples := [] }

/-- Accumulates the decimal value of a digit list; `none` at the first
non-digit character. -/
def digitsToNat (acc : Nat) : List Char → Option Nat
  | [] => some acc
  | c :: cs => if c.isDigit then digitsToNat (acc * 10 + (c.toNat - 48)) cs else none

/-- Models the Python call `int(s)` on an optionally minus-signed decimal
string: `none` where `int` would raise `ValueError` on a non-numeric
value. -/
def pyInt (s : String) : Option Int :=
  match s.data with
  | [] => none
  | c :: cs =>
      if c = '-' then
        match cs with
        | [] => none
        | _ => (digitsToNat 0 cs).map (fun n => -(n : Int))
      else (digitsToNat 0 (c :: cs)).map (fun n => (n : Int))

def subjectIds (l : List Subject) : List String :=
  l.map (fun s => s.subject_id)

def sampleIds (l : List Sample) : List String :=
  l.map (fun s => s.sample_id)

/-- The argument tuple of the `INSERT INTO Subjects` statement
(load_data.py lines 92-103); `none` when `int(row[age])` raises. -/
def parseSubject (r : CsvRow) : Option Subject :=
  match pyInt r.age with
  | none => none
  | some a =>
      some { subject_id := r.subject, project := r.project, condition := r.condition,
             age := a, sex := r.sex, treatment := r.treatment, response := r.response }

/-- The argument tuple of the `INSERT INTO Samples` statement
(load_data.py lines 107-120); `none` when any of the six `int(...)`
conversions raises. -/
def parseSample (r : CsvRow) : Option Sample :=
  match pyInt r.time_from_treatment_start, pyInt r.b_cell, pyInt r.cd8_t_cell,
        pyInt r.cd4_t_cell, pyInt r.nk_cell, pyInt r.monocyte with
  | some t, some b, some c8, some c4, some nk, some mo =>
      some { sample_id := r.sample, subject_id := r.subject, sample_type := r.sample_type,
             time_from_treatment_start := t, b_cell := b, cd8_t_cell := c8,
             cd4_t_cell := c4, nk_cell := nk, monocyte := mo }
  | _, _, _, _, _, _ => none

/-- The run-local state of one ingestion pass: the `processed_subjects`
set and the rows inserted so far in the open transaction. -/
structure IngestState where
  processed : List String
  subjects : List Subject
  samples : List Sample
deriving Repr, DecidableEq

def emptyIngest : IngestState :=
  { processed := [], subjects := [], samples := [] }

/-- The subject half of one loop iteration (load_data.py lines 90-104):
insert a Subject only when the subject value is new; `none` when the age
parse raises or the `subject_id` PRIMARY KEY constraint fires against the
committed table or the pending inserts. -/
def insertSubject (db : Database) (st : IngestState) (r : CsvRow) : Option IngestState :=
  if r.subject ∈ st.processed then some st
  else
    match parseSubject r with
    | none => none
    | some sub =>
        if sub.subject_id ∈ subjectIds db.subjects ∨ sub.subject_id ∈ subjectIds st.subjects
        then none
        else some { st with subjects := st.subjects ++ [sub],
                            processed := st.processed ++ [r.subject] }

/-- The sample half of one loop iteration (load_data.py lines 106-120):
always insert one Sample; `none` when a numeric parse raises or the
`sample_id` PRIMARY KEY constraint fires. -/
def insertSample (db : Database) (st : IngestState) (r : CsvRow) : Option IngestState :=
  match parseSample r with
  | none => none
  | some sa =>
      if sa.sample_id ∈ sampleIds db.samples ∨ sa.sample_id ∈ sampleIds st.samples
      then none
      else some { st with samples := st.samples ++ [sa] }

/-- One full iteration of the `for row in reader` loop: the Subject insert
(guarded by `processed_subjects`) strictly precedes the Sample insert. -/
def stepRow (db : Database) (st : IngestState) (r : CsvRow) : Option IngestState :=
  match insertSubject db st r with
  | none => none
  | some st1 => insertSample db st1 r

/-- Runs the ingestion loop from a given run-local state; `none` as soon
as one row raises, in which case the transaction will be rolled back. -/
def processRowsFrom (db : Database) : IngestState → List CsvRow → Option IngestState
  | st, [] => some st
  | st, r :: rs =>
      match stepRow db st r with
      | none => none
      | some st1 => processRowsFrom db st1 rs

def processRows (db : Database) (rows : List CsvRow) : Option IngestState :=
  processRowsFrom db emptyIngest rows

/-- `load_data` (load_data.py lines 67-132): run the loop inside one
transaction; on success commit every pending insert, on any exception
roll the whole transaction back, print the error and leave the store as
it was.  The boolean reports success. -/
def load_data (db : Database) (rows : List CsvRow) : Database × Bool :=
  match processRows db rows with
  | some st =>
      ({ db with subjects := db.subjects ++ st.subjects,
                 samples := db.samples ++ st.samples }, true)
  | none => (db, false)

/-- The intermediate run-local states reached while the loop executes,
starting from a given state and cut off at the first raising row. -/
def ingestTraceAux (db : Database) : IngestState → List CsvRow → List IngestState
  | st, [] => [st]
  | st, r :: rs =>
      st :: (match stepRow db st r with
             | none => []
             | some st1 => ingestTraceAux db st1 rs)

/-- Every run-local state of one ingestion pass over `rows`, in order. -/
def ingestTrace (db : Database) (rows : List CsvRow) : List IngestState :=
  ingestTraceAux db emptyIngest rows

/-! ## Floating-point values of the analysis pipeline -/

/-- Rationals extended with the IEEE special values that the pandas and
scipy computations of this pipeline can produce. -/
inductive PFloat where
  | val (q : ℚ)
  | nan
  | inf
  | ninf
deriving Repr, DecidableEq

/-- Division of two finite floats as pandas and numpy perform it:
`0 / 0` is NaN, a nonzero numerator over zero is a signed infinity. -/
def pdivQ (a b : ℚ) : PFloat :=
  if b = 0 then
    (if a = 0 then PFloat.nan else if a > 0 then PFloat.inf else PFloat.ninf)
  else PFloat.val (a / b)

/-- Multiplication by a finite scalar; NaN propagates and `0 * inf` is
NaN, as in IEEE arithmetic. -/
def PFloat.scale (c : ℚ) : PFloat → PFloat
  | PFloat.val q => PFloat.val (c * q)
  | PFloat.nan => PFloat.nan
  | PFloat.inf => if c > 0 then PFloat.inf else if c < 0 then PFloat.ninf else PFloat.nan
  | PFloat.ninf => if c > 0 then PFloat.ninf else if c < 0 then PFloat.inf else PFloat.nan

/-- IEEE addition on the extended values; NaN propagates and opposite
infinities give NaN. -/
def PFloat.add : PFloat → PFloat → PFloat
  | PFloat.nan, _ => PFloat.nan
  | _, PFloat.nan => PFloat.nan
  | PFloat.inf, PFloat.ninf => PFloat.nan
  | PFloat.ninf, PFloat.inf => PFloat.nan
  | PFloat.inf, _ => PFloat.inf
  | _, PFloat.inf => PFloat.inf
  | PFloat.ninf, _ => PFloat.ninf
  | _, PFloat.ninf => PFloat.ninf
  | PFloat.val a, PFloat.val b => PFloat.val (a + b)

/-- Division of an extended value by a finite scalar (IEEE: an infinity
over zero keeps its sign, because the zero is a positive zero). -/
def PFloat.divByQ : PFloat → ℚ → PFloat
  | PFloat.nan, _ => PFloat.nan
  | PFloat.val a, d => pdivQ a d
  | PFloat.inf, d => if d < 0 then PFloat.ninf else PFloat.inf
  | PFloat.ninf, d => if d < 0 then PFloat.inf else PFloat.ninf

/-- Division of a finite scalar by an extended value (a finite value over
an infinity is zero). -/
def PFloat.qDiv (a : ℚ) : PFloat → PFloat
  | PFloat.nan => PFloat.nan
  | PFloat.val d => pdivQ a d
  | PFloat.inf => PFloat.val 0
  | PFloat.ninf => PFloat.val 0

/-- The comparison `p_value < c` as Python evaluates it on floats: every
comparison with NaN is false. -/
def PFloat.ltQ : PFloat → ℚ → Bool
  | PFloat.val a, c => decide (a < c)
  | PFloat.ninf, _ => true
  | _, _ => false

/-! ## Analysis pipeline (analysis.py) -/

/-- analysis.py line 10: the fixed enumerated population list. -/
def CELL_POPULATIONS : List String :=
  ["b_cell", "cd8_t_cell", "cd4_t_cell", "nk_cell", "monocyte"]

/-- One row of the joined query of `run_statistical_analysis`
(analysis.py lines 60-68): all Sample columns plus the condition,
treatment and response of the owning Subject. -/
structure JoinedRow where
  sample_id : String
  subject_id : String
  sample_type : String
  time_from_treatment_start : Int
  b_cell : Int
  cd8_t_cell : Int
  cd4_t_cell : Int
  nk_cell : Int
  monocyte : Int
  condition : String
  treatment : String
  response : String
deriving Repr, DecidableEq

/-- The inner join `Samples JOIN Subjects ON subject_id` feeding both
analysis entry points. -/
def joinSamplesSubjects (db : Database) : List JoinedRow :=
  db.samples.flatMap (fun sa =>
    (db.subjects.filter (fun su => su.subject_id == sa.subject_id)).map (fun su =>
      { sample_id := sa.sample_id, subject_id := sa.subject_id,
        sample_type := sa.sample_type,
        time_from_treatment_start := sa.time_from_treatment_start,
        b_cell := sa.b_cell, cd8_t_cell := sa.cd8_t_cell, cd4_t_cell := sa.cd4_t_cell,
        nk_cell := sa.nk_cell, monocyte := sa.monocyte,
        condition := su.condition, treatment := su.treatment, response := su.response }))

/-- The cohort filter of `run_statistical_analysis` (analysis.py lines
74-78): melanoma, miraclib, PBMC. -/
def filterCohort (df : List JoinedRow) : List JoinedRow :=
  df.filter (fun r =>
    r.condition == "melanoma" && r.treatment == "miraclib" && r.sample_type == "PBMC")

/-- Column lookup used by `melt` on the five population value columns. -/
def getPop (r : JoinedRow) (pop : String) : Int :=
  if pop = "b_cell" then r.b_cell
  else if pop = "cd8_t_cell" then r.cd8_t_cell
  else if pop = "cd4_t_cell" then r.cd4_t_cell
  else if pop = "nk_cell" then r.nk_cell
  else if pop = "monocyte" then r.monocyte
  else 0

/-- analysis.py line 82: `total_count` is the row-wise sum of the five
population columns. -/
def totalCount (r : JoinedRow) : Int :=
  r.b_cell + r.cd8_t_cell + r.cd4_t_cell + r.nk_cell + r.monocyte

/-- One row of the long-form dataset of `run_statistical_analysis`. -/
structure LongRow where
  sample_id : String
  response : String
  total_count : Int
  population : String
  count : Int
deriving Repr, DecidableEq

/-- `pd.melt` with `id_vars = [sample_id, response, total_count]` and
`value_vars = CELL_POPULATIONS` (analysis.py lines 83-88): pandas stacks
one block per value variable, in the order of the value list. -/
def meltStat (df : List JoinedRow) : List LongRow :=
  CELL_POPULATIONS.flatMap (fun pop =>
    df.map (fun r =>
      { sample_id := r.sample_id, response := r.response,
        total_count := totalCount r, population := pop, count := getPop r pop }))

/-- analysis.py line 89: `percentage = count / total_count * 100`. -/
def percentage (l : LongRow) : PFloat :=
  PFloat.scale 100 (pdivQ (l.count : ℚ) (l.total_count : ℚ))

/-- Drops the missing values of a percentage column, keeping the finite
ones: this is `nan_policy = omit` of `scipy.stats.ttest_ind` applied to
the pipeline, whose columns never hold an infinity. -/
def omitMissing (xs : List PFloat) : List ℚ :=
  xs.filterMap (fun x => match x with | PFloat.val q => some q | _ => none)

def sqDevSum (xs : List ℚ) (m : ℚ) : ℚ :=
  (xs.map (fun x => (x - m) ^ 2)).sum

/-- The p-value of `scipy.stats.ttest_ind` on two finite samples with the
default pooled-variance test, up to the final Student-t tail evaluation:
`cdf tsq df` stands for the strictly monotone map from the squared
t-statistic and the degrees of freedom to the two-sided p-value, which is
the one scipy-internal real-valued function not re-derived here.  All NaN
propagation (empty groups, single-observation variances, zero pooled
variance) is computed exactly. -/
def ttest_core (cdf : ℚ → ℚ → ℚ) (a b : List ℚ) : PFloat :=
  if a.length = 0 ∨ b.length = 0 then PFloat.nan
  else
    let n1 : ℚ := a.length
    let n2 : ℚ := b.length
    let m1 := a.sum / n1
    let m2 := b.sum / n2
    let v1 := pdivQ (sqDevSum a m1) (n1 - 1)
    let v2 := pdivQ (sqDevSum b m2) (n2 - 1)
    let pooled := PFloat.divByQ (PFloat.add (PFloat.scale (n1 - 1) v1) (PFloat.scale (n2 - 1) v2)) (n1 + n2 - 2)
    let denom := PFloat.scale (1 / n1 + 1 / n2) pooled
    match PFloat.qDiv ((m1 - m2) ^ 2) denom with
    | PFloat.nan => PFloat.nan
    | PFloat.inf => PFloat.val 0
    | PFloat.ninf => PFloat.val 0
    | PFloat.val q => PFloat.val (cdf q (n1 + n2 - 2))

/-- `ttest_ind(a, b, nan_policy = omit)` on two percentage columns. -/
def ttest_ind (cdf : ℚ → ℚ → ℚ) (a b : List PFloat) : PFloat :=
  ttest_core cdf (omitMissing a) (omitMissing b)

/-- The percentage column of the long rows of one population restricted
to one response group (analysis.py lines 113-114). -/
def respPercentages (dfLong : List LongRow) (pop resp : String) : List PFloat :=
  (dfLong.filter (fun l => l.population == pop && l.response == resp)).map percentage

/-- One line of the statistical report: the population, the p-value and
the printed verdict `p_value < 0.05`. -/
structure PopResult where
  population : String
  p_value : PFloat
  significant : Bool
deriving Repr, DecidableEq

/-- The statistical loop of `run_statistical_analysis` (analysis.py lines
111-126): for each population of the fixed list, in list order, run the
t-test on responders versus non-responders and derive the verdict. -/
def run_statistical_analysis (cdf : ℚ → ℚ → ℚ) (df : List JoinedRow) : List PopResult :=
  let dfLong := meltStat (filterCohort df)
  CELL_POPULATIONS.map (fun pop =>
    let p := ttest_ind cdf (respPercentages dfLong pop "yes") (respPercentages dfLong pop "no")
    { population := pop, p_value := p, significant := PFloat.ltQ p (0.05 : ℚ) })

/-! ## Part 2 reshape (run_analysis, analysis.py lines 36-41) -/

/-- One row of the Part 2 long-form summary (melt of the Samples table
with `id_vars = [sample_id, total_count]`). -/
structure LongRow2 where
  sample : String
  total_count : Int
  population : String
  count : Int
deriving Repr, DecidableEq

def getPopS (sa : Sample) (pop : String) : Int :=
  if pop = "b_cell" then sa.b_cell
  else if pop = "cd8_t_cell" then sa.cd8_t_cell
  else if pop = "cd4_t_cell" then sa.cd4_t_cell
  else if pop = "nk_cell" then sa.nk_cell
  else if pop = "monocyte" then sa.monocyte
  else 0

def totalCountS (sa : Sample) : Int :=
  sa.b_cell + sa.cd8_t_cell + sa.cd4_t_cell + sa.nk_cell + sa.monocyte

/-- The Part 2 melt (analysis.py lines 36-38). -/
def meltPart2 (df : List Sample) : List LongRow2 :=
  CELL_POPULATIONS.flatMap (fun pop =>
    df.map (fun sa =>
      { sample := sa.sample_id, total_count := totalCountS sa,
        population := pop, count := getPopS sa pop }))

/-! ## Subset analysis (run_subset_analysis, analysis.py lines 142-209) -/

/-- One row of the joined query of `run_subset_analysis` (analysis.py
lines 157-170). -/
structure SubsetRow where
  project : String
  subject_id : String
  condition : String
  sex : String
  treatment : String
  response : String
  sample_id : String
  sample_type : String
  time_from_treatment_start : Int
deriving Repr, DecidableEq

/-- The baseline filter (analysis.py lines 176-181): melanoma, miraclib,
PBMC, timepoint zero. -/
def baselineFilter (df : List SubsetRow) : List SubsetRow :=
  df.filter (fun r =>
    r.condition == "melanoma" && r.treatment == "miraclib" &&
    r.sample_type == "PBMC" && r.time_from_treatment_start == 0)

def insertSorted (s : String) : List String → List String
  | [] => [s]
  | t :: ts => if s ≤ t then s :: t :: ts else t :: insertSorted s ts

def sortStrings : List String → List String
  | [] => []
  | s :: ss => insertSorted s (sortStrings ss)

/-- The sorted distinct group labels of a key column, as pandas `groupby`
enumerates its groups. -/
def groupKeys (xs : List String) : List String :=
  sortStrings xs.dedup

/-- `groupby(key).size()` (analysis.py line 193): the number of ROWS per
group label. -/
def groupBySize (key : SubsetRow → String) (df : List SubsetRow) : List (String × Nat) :=
  (groupKeys (df.map key)).map (fun k => (k, (df.filter (fun r => key r == k)).length))

/-- The number of distinct values of a column (`Series.nunique`). -/
def nunique (xs : List String) : Nat :=
  xs.dedup.length

/-- `groupby(key)[subject_id].nunique()` (analysis.py lines 199 and 204):
the number of DISTINCT subjects per group label. -/
def groupByNunique (key : SubsetRow → String) (df : List SubsetRow) : List (String × Nat) :=
  (groupKeys (df.map key)).map (fun k =>
    (k, nunique ((df.filter (fun r => key r == k)).map (fun r => r.subject_id))))

/-- The outcome of `run_subset_analysis`: either the early no-data return
(analysis.py lines 183-185) or the three printed summaries. -/
inductive SubsetReport where
  | noData
  | summary (project_counts response_counts sex_counts : List (String × Nat))
deriving Repr, DecidableEq

/-- `run_subset_analysis` (analysis.py lines 142-209): filter to the
baseline cohort; on an empty cohort print a message and return early,
otherwise report rows per project, distinct subjects per response and
distinct subjects per sex. -/
def run_subset_analysis (df : List SubsetRow) : SubsetReport :=
  let baseline := baselineFilter df
  if baseline.isEmpty then SubsetReport.noData
  else
    SubsetReport.summary
      (groupBySize (fun r => r.project) baseline)
      (groupByNunique (fun r => r.response) baseline)
      (groupByNunique (fun r => r.sex) baseline)

/-- Lookup of the reported value for one group label. -/
def countFor (summary : List (String × Nat)) (k : String) : Option Nat :=
  (summary.find? (fun p => p.1 == k)).map (fun p => p.2)

/-! ## part4_query.py -/

/-- Models SQLite resolving a table name at query time: an unknown table
makes the query raise `OperationalError`. -/
def runQueryTable (db : Database) (t : String) : Except String Unit :=
  if t ∈ db.tableNames then Except.ok () else Except.error ("no such table: " ++ t)

/-- `calculate_avg_b_cells` (part4_query.py lines 4-26): the query reads
from a table named `cell_counts`.  The `ok` branch stands for the
unmodelled mean computation; it is unreachable for every store this
pipeline builds, which is exactly what the theorem below establishes. -/
def calculate_avg_b_cells (db : Database) : Except String ℚ :=
  match runQueryTable db "cell_counts" with
  | Except.error e => Except.error e
  | Except.ok _ => Except.ok 0

/-! ## Concrete inputs used by witnesses and counterexamples -/

/-- A stand-in for the scipy Student-t tail map, used to instantiate
universally quantified theorems on concrete inputs. -/
def cdfZ : ℚ → ℚ → ℚ := fun _ _ => 0

/-- A joined row passing the melanoma, miraclib, PBMC cohort filter. -/
def mkJoined (sid resp : String) (b c8 c4 nk mo : Int) : JoinedRow :=
  { sample_id := sid, subject_id := sid, sample_type := "PBMC",
    time_from_treatment_start := 0, b_cell := b, cd8_t_cell := c8, cd4_t_cell := c4,
    nk_cell := nk, monocyte := mo, condition := "melanoma", treatment := "miraclib",
    response := resp }

/-- One responder and five non-responders, all inside the cohort. -/
def dfC1 : List JoinedRow :=
  [mkJoined "s1" "yes" 10 20 30 40 50,
   mkJoined "s2" "no" 1 2 3 4 5, mkJoined "s3" "no" 2 3 4 5 6,
   mkJoined "s4" "no" 3 4 5 6 7, mkJoined "s5" "no" 4 5 6 7 8,
   mkJoined "s6" "no" 5 6 7 8 9]

/-- A cohort with one sample whose five counts are all zero. -/
def dfC8 : List JoinedRow := [mkJoined "sz" "yes" 0 0 0 0 0]

/-- The b_cell long row produced from the all-zero sample of `dfC8`. -/
def lC8 : LongRow :=
  { sample_id := "sz", response := "yes", total_count := 0, population := "b_cell", count := 0 }

/-- One subset row passing the baseline filter. -/
def subsetRow1 : SubsetRow :=
  { project := "p1", subject_id := "u1", condition := "melanoma", sex := "F",
    treatment := "miraclib", response := "yes", sample_id := "s1", sample_type := "PBMC",
    time_from_treatment_start := 0 }

/-- One subject contributing two samples to the baseline cohort. -/
def dfC2 : List SubsetRow := [subsetRow1, { subsetRow1 with sample_id := "s2" }]

/-- One subject with two samples whose project, response and sex all
carry the same label, so one theorem application covers all three
summaries. -/
def dfW2 : List SubsetRow :=
  [{ subsetRow1 with project := "grp", response := "grp", sex := "grp" },
   { subsetRow1 with project := "grp", response := "grp", sex := "grp", sample_id := "s2" }]

def rowW1 : CsvRow :=
  { subject := "u1", project := "p1", condition := "melanoma", age := "42", sex := "F",
    treatment := "miraclib", response := "yes", sample := "s1", sample_type := "PBMC",
    time_from_treatment_start := "0", b_cell := "1", cd8_t_cell := "2", cd4_t_cell := "3",
    nk_cell := "4", monocyte := "5" }

def rowW2 : CsvRow := { rowW1 with sample := "s2", time_from_treatment_start := "7" }

/-- A row whose b_cell count is non-numeric: its ingestion raises. -/
def rowBadW : CsvRow := { rowW1 with sample := "s3", b_cell := "abc" }

/-- The Subject row parsed from `rowW1`. -/
def subjW : Subject :=
  { subject_id := "u1", project := "p1", condition := "melanoma", age := 42,
    sex := "F", treatment := "miraclib", response := "yes" }

/-- The Sample row parsed from `rowW1`. -/
def sampW1 : Sample :=
  { sample_id := "s1", subject_id := "u1", sample_type := "PBMC",
    time_from_treatment_start := 0, b_cell := 1, cd8_t_cell := 2,
    cd4_t_cell := 3, nk_cell := 4, monocyte := 5 }

/-- The Sample row parsed from `rowW2`. -/
def sampW2 : Sample := { sampW1 with sample_id := "s2", time_from_treatment_start := 7 }

/-- The run-local state reached after ingesting `rowW1`. -/
def stW : IngestState :=
  { processed := ["u1"], subjects := [subjW], samples := [sampW1] }

/-- The run-local state reached after ingesting `rowW1` and `rowW2`: the
repeated subject adds no second Subject row. -/
def stW2 : IngestState :=
  { processed := ["u1"], subjects := [subjW], samples := [sampW1, sampW2] }

/-! ## Helper lemmas on PFloat arithmetic -/

@[simp]
theorem PFloat.scale_nan (c : ℚ) : PFloat.scale c PFloat.nan = PFloat.nan := rfl

@[simp]
theorem PFloat.add_nan_left (x : PFloat) : PFloat.add PFloat.nan x = PFloat.nan := by
  cases x <;> rfl

@[simp]
theorem PFloat.add_nan_right (x : PFloat) : PFloat.add x PFloat.nan = PFloat.nan := by
  cases x <;> rfl

@[simp]
theorem PFloat.divByQ_nan (d : ℚ) : PFloat.divByQ PFloat.nan d = PFloat.nan := rfl

@[simp]
theorem PFloat.qDiv_nan (a : ℚ) : PFloat.qDiv a PFloat.nan = PFloat.nan := rfl

@[simp]
theorem PFloat.ltQ_nan (c : ℚ) : PFloat.ltQ PFloat.nan c = false := rfl

theorem sqDevSum_single (x m : ℚ) : sqDevSum [x] m = (x - m) ^ 2 := by
  simp [sqDevSum]

/-- A group without observations makes the pooled t-test NaN (scipy: the
mean of an empty array is NaN). -/
theorem ttest_core_nil_left (cdf : ℚ → ℚ → ℚ) (b : List ℚ) :
    ttest_core cdf [] b = PFloat.nan := by
  simp [ttest_core]

theorem ttest_core_nil_right (cdf : ℚ → ℚ → ℚ) (a : List ℚ) :
    ttest_core cdf a [] = PFloat.nan := by
  simp [ttest_core]

/-- A single-observation group makes the pooled t-test NaN: its sample
variance with one degree of freedom lost is `0 / 0`. -/
theorem ttest_core_single_left (cdf : ℚ → ℚ → ℚ) (x : ℚ) (b : List ℚ) :
    ttest_core cdf [x] b = PFloat.nan := by
  cases b with
  | nil => exact ttest_core_nil_right cdf [x]
  | cons y t =>
      unfold ttest_core
      rw [if_neg (by simp)]
      have hv1 : pdivQ (sqDevSum [x] (List.sum [x] / (([x].length : ℕ) : ℚ))) ((([x].length : ℕ) : ℚ) - 1)
          = PFloat.nan := by
        simp [sqDevSum_single, pdivQ]
      simp only [hv1, PFloat.scale_nan, PFloat.add_nan_left, PFloat.divByQ_nan, PFloat.qDiv_nan]

theorem ttest_core_single_right (cdf : ℚ → ℚ → ℚ) (a : List ℚ) (y : ℚ) :
    ttest_core cdf a [y] = PFloat.nan := by
  cases a with
  | nil => exact ttest_core_nil_left cdf [y]
  | cons x t =>
      unfold ttest_core
      rw [if_neg (by simp)]
      have hv2 : pdivQ (sqDevSum [y] (List.sum [y] / (([y].length : ℕ) : ℚ))) ((([y].length : ℕ) : ℚ) - 1)
          = PFloat.nan := by
        simp [sqDevSum_single, pdivQ]
      simp only [hv2, PFloat.scale_nan, PFloat.add_nan_right, PFloat.divByQ_nan, PFloat.qDiv_nan]

/-- Fewer than two observations in either group force a NaN p-value. -/
theorem ttest_core_nan (cdf : ℚ → ℚ → ℚ) (a b : List ℚ)
    (h : a.length < 2 ∨ b.length < 2) : ttest_core cdf a b = PFloat.nan := by
  rcases h with h | h
  · match a, h with
    | [], _ => exact ttest_core_nil_left cdf b
    | [x], _ => exact ttest_core_single_left cdf x b
  · match b, h with
    | [], _ => exact ttest_core_nil_right cdf a
    | [y], _ => exact ttest_core_single_right cdf a y

/-! ## Claim C9: determinism and fixed population order -/

/-- C9: running the statistical comparison twice on identical input (and
one fixed Student-t tail map, as scipy is deterministic) yields identical
reports, and the population order of the report is exactly the fixed
enumerated list, not an order derived from the data. -/
theorem c9_deterministic_fixed_order (cdf : ℚ → ℚ → ℚ) (df1 df2 : List JoinedRow)
    (h : df1 = df2) :
    run_statistical_analysis cdf df1 = run_statistical_analysis cdf df2 ∧
    (run_statistical_analysis cdf df1).map (fun p => p.population) = CELL_POPULATIONS := by
  subst h
  refine ⟨rfl, ?_⟩
  simp [run_statistical_analysis, Function.comp_def]

theorem c9_witness :
    run_statistical_analysis cdfZ dfC1 = run_statistical_analysis cdfZ dfC1 ∧
    (run_statistical_analysis cdfZ dfC1).map (fun p => p.population) = CELL_POPULATIONS :=
  c9_deterministic_fixed_order cdfZ dfC1 dfC1 rfl

/-! ## Claim C10: the Part 4 query reads a table that never exists -/

/-- C10: every store produced by ingestion carries exactly the tables
`Subjects` and `Samples`, so `calculate_avg_b_cells`, whose query reads
from `cell_counts`, raises an operational error and never returns a
computed average. -/
theorem c10_query_always_errors (rows : List CsvRow) :
    calculate_avg_b_cells (load_data initialize_database rows).1 =
      Except.error "no such table: cell_counts" := by
  have h : (load_data initialize_database rows).1.tableNames = ["Subjects", "Samples"] := by
    unfold load_data
    cases processRows initialize_database rows <;> rfl
  unfold calculate_avg_b_cells runQueryTable
  rw [h, if_neg (by decide)]
  rfl

/-! ## Claim C5 (corrected): empty cohorts return early, without summaries -/

/-- C5 counterexample: on an empty cohort `run_subset_analysis` does not
produce three empty summary tables; it takes the early no-data return. -/
theorem c5_counterexample :
    run_subset_analysis [] = SubsetReport.noData ∧
    SubsetReport.noData ≠ SubsetReport.summary [] [] [] := by
  exact ⟨rfl, by simp⟩

/-- C5 amended: a filter yielding zero rows never raises: the aggregation
entry point detects the empty cohort and returns early with a no-data
message, producing no summaries; the three group-by summaries are
produced exactly for non-empty cohorts. -/
theorem c5_empty_cohort (df : List SubsetRow) :
    (baselineFilter df = [] → run_subset_analysis df = SubsetReport.noData) ∧
    (baselineFilter df ≠ [] →
      run_subset_analysis df =
        SubsetReport.summary
          (groupBySize (fun r => r.project) (baselineFilter df))
          (groupByNunique (fun r => r.response) (baselineFilter df))
          (groupByNunique (fun r => r.sex) (baselineFilter df))) := by
  constructor
  · intro h
    simp [run_subset_analysis, h]
  · intro h
    simp [run_subset_analysis, List.isEmpty_iff, h]

theorem c5_witness :
    run_subset_analysis [] = SubsetReport.noData ∧
    run_subset_analysis dfC2 =
      SubsetReport.summary
        (groupBySize (fun r => r.project) (baselineFilter dfC2))
        (groupByNunique (fun r => r.response) (baselineFilter dfC2))
        (groupByNunique (fun r => r.sex) (baselineFilter dfC2)) :=
  ⟨(c5_empty_cohort []).1 rfl, (c5_empty_cohort dfC2).2 (by decide)⟩

/-! ## Claim C1 (corrected): there is no sufficient-data guard -/

/-- C1 counterexample: with one responder and five non-responders the
source runs the t-test anyway, and for every population the report
carries a p-value entry (NaN) together with the printed verdict that the
difference is not significant; no sufficient_data field exists anywhere
in the report. -/
theorem c1_counterexample :
    run_statistical_analysis cdfZ dfC1 =
      [{ population := "b_cell", p_value := PFloat.nan, significant := false },
       { population := "cd8_t_cell", p_value := PFloat.nan, significant := false },
       { population := "cd4_t_cell", p_value := PFloat.nan, significant := false },
       { population := "nk_cell", p_value := PFloat.nan, significant := false },
       { population := "monocyte", p_value := PFloat.nan, significant := false }] := by
  have h1 : ttest_ind cdfZ (respPercentages (meltStat (filterCohort dfC1)) "b_cell" "yes")
      (respPercentages (meltStat (filterCohort dfC1)) "b_cell" "no") = PFloat.nan :=
    ttest_core_nan cdfZ _ _ (Or.inl (by decide))
  have h2 : ttest_ind cdfZ (respPercentages (meltStat (filterCohort dfC1)) "cd8_t_cell" "yes")
      (respPercentages (meltStat (filterCohort dfC1)) "cd8_t_cell" "no") = PFloat.nan :=
    ttest_core_nan cdfZ _ _ (Or.inl (by decide))
  have h3 : ttest_ind cdfZ (respPercentages (meltStat (filterCohort dfC1)) "cd4_t_cell" "yes")
      (respPercentages (meltStat (filterCohort dfC1)) "cd4_t_cell" "no") = PFloat.nan :=
    ttest_core_nan cdfZ _ _ (Or.inl (by decide))
  have h4 : ttest_ind cdfZ (respPercentages (meltStat (filterCohort dfC1)) "nk_cell" "yes")
      (respPercentages (meltStat (filterCohort dfC1)) "nk_cell" "no") = PFloat.nan :=
    ttest_core_nan cdfZ _ _ (Or.inl (by decide))
  have h5 : ttest_ind cdfZ (respPercentages (meltStat (filterCohort dfC1)) "monocyte" "yes")
      (respPercentages (meltStat (filterCohort dfC1)) "monocyte" "no") = PFloat.nan :=
    ttest_core_nan cdfZ _ _ (Or.inl (by decide))
  unfold run_statistical_analysis
  simp only [CELL_POPULATIONS, List.map_cons, List.map_nil]
  rw [h1, h2, h3, h4, h5]
  rfl

/-- C1 amended: the t-test is invoked unconditionally for every
population; when either response group has fewer than two non-missing
observations the scipy result is NaN, and the report still contains an
entry for that population carrying the NaN p-value and the
not-significant verdict (NaN compares false against the threshold). -/
theorem c1_no_guard (cdf : ℚ → ℚ → ℚ) (df : List JoinedRow) (pop : String)
    (hpop : pop ∈ CELL_POPULATIONS)
    (hlen : (omitMissing (respPercentages (meltStat (filterCohort df)) pop "yes")).length < 2 ∨
            (omitMissing (respPercentages (meltStat (filterCohort df)) pop "no")).length < 2) :
    PopResult.mk pop PFloat.nan false ∈ run_statistical_analysis cdf df := by
  unfold run_statistical_analysis
  refine List.mem_map.2 ⟨pop, hpop, ?_⟩
  show PopResult.mk pop
      (ttest_ind cdf (respPercentages (meltStat (filterCohort df)) pop "yes")
        (respPercentages (meltStat (filterCohort df)) pop "no"))
      (PFloat.ltQ
        (ttest_ind cdf (respPercentages (meltStat (filterCohort df)) pop "yes")
          (respPercentages (meltStat (filterCohort df)) pop "no")) (0.05 : ℚ))
    = PopResult.mk pop PFloat.nan false
  have hnan : ttest_ind cdf (respPercentages (meltStat (filterCohort df)) pop "yes")
      (respPercentages (meltStat (filterCohort df)) pop "no") = PFloat.nan :=
    ttest_core_nan cdf _ _ hlen
  rw [hnan]
  rfl

theorem c1_witness :
    (5 : ℕ) ≥ 2 ∧
    PopResult.mk "b_cell" PFloat.nan false ∈ run_statistical_analysis cdfZ dfC1 :=
  ⟨by decide, c1_no_guard cdfZ dfC1 "b_cell" (by decide) (Or.inl (by decide))⟩

/-! ## Claim C4: row conservation under reshape -/

/-- The (identifier, population) pairs of a melt are distinct whenever
the input identifiers are distinct and the population list has no
repeats. -/
theorem melt_pairs_nodup {α : Type} (pops : List String) (hpops : pops.Nodup)
    (df : List α) (sid : α → String) (hN : (df.map sid).Nodup) :
    (pops.flatMap (fun pop => df.map (fun r => (sid r, pop)))).Nodup := by
  rw [List.nodup_flatMap]
  constructor
  · intro pop _
    have h : df.map (fun r => (sid r, pop)) = (df.map sid).map (fun s => (s, pop)) := by
      simp [List.map_map]
    rw [h]
    exact hN.map (fun a b hab => by simpa using congrArg Prod.fst hab)
  · refine hpops.imp ?_
    intro p1 p2 hne x hx1 hx2
    rcases List.mem_map.1 hx1 with ⟨r1, _, rfl⟩
    rcases List.mem_map.1 hx2 with ⟨r2, _, heq⟩
    exact hne (by simpa using congrArg Prod.snd heq.symm)

/-- C4: melting a wide cohort of R rows over the fixed 5 populations
yields exactly 5R long rows, and when the input identifiers are distinct
no (sample, population) pair is duplicated, in both reshape sites of the
source (the statistical pipeline and the Part 2 summary). -/
theorem c4_reshape_conservation (df : List JoinedRow) (dfS : List Sample) :
    (meltStat df).length = 5 * df.length ∧
    (meltPart2 dfS).length = 5 * dfS.length ∧
    ((df.map (fun r => r.sample_id)).Nodup →
      ((meltStat df).map (fun l => (l.sample_id, l.population))).Nodup) ∧
    ((dfS.map (fun sa => sa.sample_id)).Nodup →
      ((meltPart2 dfS).map (fun l => (l.sample, l.population))).Nodup) := by
  refine ⟨?_, ?_, ?_, ?_⟩
  · simp [meltStat, CELL_POPULATIONS, List.length_flatMap]
    ring
  · simp [meltPart2, CELL_POPULATIONS, List.length_flatMap]
    ring
  · intro hN
    have hmap : (meltStat df).map (fun l => (l.sample_id, l.population)) =
        CELL_POPULATIONS.flatMap (fun pop => df.map (fun r => (r.sample_id, pop))) := by
      simp [meltStat, List.map_flatMap, List.map_map, Function.comp_def]
    rw [hmap]
    exact melt_pairs_nodup CELL_POPULATIONS (by decide) df (fun r => r.sample_id) hN
  · intro hN
    have hmap : (meltPart2 dfS).map (fun l => (l.sample, l.population)) =
        CELL_POPULATIONS.flatMap (fun pop => dfS.map (fun sa => (sa.sample_id, pop))) := by
      simp [meltPart2, List.map_flatMap, List.map_map, Function.comp_def]
    rw [hmap]
    exact melt_pairs_nodup CELL_POPULATIONS (by decide) dfS (fun sa => sa.sample_id) hN

/-! ## Helper lemmas on the ingestion step -/

theorem parseSubject_id {r : CsvRow} {sub : Subject} (h : parseSubject r = some sub) :
    sub.subject_id = r.subject := by
  unfold parseSubject at h
  cases hp : pyInt r.age <;> rw [hp] at h
  · exact absurd h (by simp)
  · injection h with h2
    rw [← h2]

theorem parseSample_ids {r : CsvRow} {sa : Sample} (h : parseSample r = some sa) :
    sa.sample_id = r.sample ∧ sa.subject_id = r.subject := by
  unfold parseSample at h
  split at h
  · injection h with h2
    rw [← h2]
    exact ⟨rfl, rfl⟩
  · exact absurd h (by simp)

/-- Full description of a successful Subject insertion: either the
subject was seen before and nothing changes, or it is new and exactly one
Subject row and one processed entry are appended. -/
theorem insertSubject_char {db : Database} {st : IngestState} {r : CsvRow} {st1 : IngestState}
    (h : insertSubject db st r = some st1) :
    st1.samples = st.samples ∧
    ((r.subject ∈ st.processed ∧ st1 = st) ∨
     (r.subject ∉ st.processed ∧ ∃ sub, parseSubject r = some sub ∧
        sub.subject_id = r.subject ∧ sub.subject_id ∉ subjectIds st.subjects ∧
        st1.processed = st.processed ++ [r.subject] ∧
        st1.subjects = st.subjects ++ [sub])) := by
  unfold insertSubject at h
  by_cases hmem : r.subject ∈ st.processed
  · rw [if_pos hmem] at h
    injection h with h1
    exact ⟨by rw [← h1], Or.inl ⟨hmem, h1.symm⟩⟩
  · rw [if_neg hmem] at h
    cases hps : parseSubject r with
    | none => rw [hps] at h; exact absurd h (by simp)
    | some sub =>
        rw [hps] at h
        dsimp only at h
        by_cases hpk : sub.subject_id ∈ subjectIds db.subjects ∨
            sub.subject_id ∈ subjectIds st.subjects
        · rw [if_pos hpk] at h; exact absurd h (by simp)
        · rw [if_neg hpk] at h
          injection h with h1
          exact ⟨by rw [← h1], Or.inr ⟨hmem, sub, rfl, parseSubject_id hps,
            fun hc => hpk (Or.inr hc), by rw [← h1], by rw [← h1]⟩⟩

/-- Full description of a successful Sample insertion: exactly one Sample
row is appended, carrying the identifiers of the current source row;
subjects and the processed set are untouched. -/
theorem insertSample_char {db : Database} {st : IngestState} {r : CsvRow} {st1 : IngestState}
    (h : insertSample db st r = some st1) :
    ∃ sa, parseSample r = some sa ∧ sa.sample_id = r.sample ∧ sa.subject_id = r.subject ∧
      st1.samples = st.samples ++ [sa] ∧ st1.subjects = st.subjects ∧
      st1.processed = st.processed := by
  unfold insertSample at h
  cases hps : parseSample r with
  | none => rw [hps] at h; exact absurd h (by simp)
  | some sa =>
      rw [hps] at h
      dsimp only at h
      by_cases hpk : sa.sample_id ∈ sampleIds db.samples ∨ sa.sample_id ∈ sampleIds st.samples
      · rw [if_pos hpk] at h; exact absurd h (by simp)
      · rw [if_neg hpk] at h
        injection h with h1
        obtain ⟨hid, hsid⟩ := parseSample_ids hps
        exact ⟨sa, rfl, hid, hsid, by rw [← h1], by rw [← h1], by rw [← h1]⟩

theorem stepRow_elim {db : Database} {st : IngestState} {r : CsvRow} {st1 : IngestState}
    (h : stepRow db st r = some st1) :
    ∃ stA, insertSubject db st r = some stA ∧ insertSample db stA r = some st1 := by
  unfold stepRow at h
  cases hs : insertSubject db st r with
  | none => rw [hs] at h; exact absurd h (by simp)
  | some stA => rw [hs] at h; exact ⟨stA, rfl, h⟩

/-- After the subject half of an iteration the current subject value is
always in the processed set. -/
theorem insertSubject_processed_mem {db : Database} {st : IngestState} {r : CsvRow}
    {st1 : IngestState} (h : insertSubject db st r = some st1) :
    r.subject ∈ st1.processed := by
  obtain ⟨-, hcase⟩ := insertSubject_char h
  rcases hcase with ⟨hmem, rfl⟩ | ⟨-, sub, -, -, -, hproc, -⟩
  · exact hmem
  · rw [hproc]
    simp

/-- The subject half keeps the processed set and the Subjects table in
lockstep: the ids of the inserted Subject rows are the processed set. -/
theorem insertSubject_sync {db : Database} {st : IngestState} {r : CsvRow} {st1 : IngestState}
    (h : insertSubject db st r = some st1)
    (hs : subjectIds st.subjects = st.processed) :
    subjectIds st1.subjects = st1.processed := by
  obtain ⟨-, hcase⟩ := insertSubject_char h
  rcases hcase with ⟨-, rfl⟩ | ⟨-, sub, -, hid, -, hproc, hsubs⟩
  · exact hs
  · have hs2 : st.subjects.map (fun s => s.subject_id) = st.processed := hs
    rw [hproc, hsubs]
    simp [subjectIds, hs2, hid]

theorem stepRow_sync {db : Database} {st : IngestState} {r : CsvRow} {st1 : IngestState}
    (h : stepRow db st r = some st1)
    (hs : subjectIds st.subjects = st.processed) :
    subjectIds st1.subjects = st1.processed := by
  obtain ⟨stA, hA, hB⟩ := stepRow_elim h
  obtain ⟨sa, -, -, -, -, hsubs, hproc⟩ := insertSample_char hB
  rw [hsubs, hproc]
  exact insertSubject_sync hA hs

/-- Sample conservation along the loop: every processed source row
appends exactly its own sample identifier, in order. -/
theorem processFrom_sampleIds (db : Database) :
    ∀ (rows : List CsvRow) (st0 st : IngestState),
      processRowsFrom db st0 rows = some st →
      st.samples.map (fun sa => sa.sample_id) =
        st0.samples.map (fun sa => sa.sample_id) ++ rows.map (fun r => r.sample) := by
  intro rows
  induction rows with
  | nil =>
      intro st0 st h
      unfold processRowsFrom at h
      injection h with h1
      rw [← h1]
      simp
  | cons r rs ih =>
      intro st0 st h
      unfold processRowsFrom at h
      cases hstep : stepRow db st0 r with
      | none => rw [hstep] at h; exact absurd h (by simp)
      | some st1 =>
          rw [hstep] at h
          obtain ⟨stA, hA, hB⟩ := stepRow_elim hstep
          obtain ⟨sa, -, hid, -, hsamp, -, -⟩ := insertSample_char hB
          obtain ⟨hsampA, -⟩ := insertSubject_char hA
          rw [ih st1 st h, hsamp, hsampA]
          simp [hid]

/-- The processed set after the loop is the initial one plus the subject
values of the processed rows. -/
theorem processFrom_processed (db : Database) :
    ∀ (rows : List CsvRow) (st0 st : IngestState),
      processRowsFrom db st0 rows = some st →
      ∀ k, k ∈ st.processed ↔ k ∈ st0.processed ∨ k ∈ rows.map (fun r => r.subject) := by
  intro rows
  induction rows with
  | nil =>
      intro st0 st h k
      unfold processRowsFrom at h
      injection h with h1
      rw [← h1]
      simp
  | cons r rs ih =>
      intro st0 st h k
      unfold processRowsFrom at h
      cases hstep : stepRow db st0 r with
      | none => rw [hstep] at h; exact absurd h (by simp)
      | some st1 =>
          rw [hstep] at h
          obtain ⟨stA, hA, hB⟩ := stepRow_elim hstep
          obtain ⟨sa, -, -, -, -, -, hproc1⟩ := insertSample_char hB
          have ih2 := ih st1 st h k
          rw [hproc1] at ih2
          obtain ⟨-, hcase⟩ := insertSubject_char hA
          rcases hcase with ⟨hmem, heqA⟩ | ⟨hmem, sub, -, -, -, hprocA, -⟩
          · rw [heqA] at ih2
            rw [ih2]
            have hk : k = r.subject → k ∈ st0.processed := fun he => he ▸ hmem
            simp only [List.map_cons, List.mem_cons]
            tauto
          · rw [hprocA] at ih2
            rw [ih2]
            simp only [List.mem_append, List.mem_singleton, List.map_cons, List.mem_cons]
            tauto

/-- The loop never adds a subject value to the processed set twice. -/
theorem processFrom_nodupProcessed (db : Database) :
    ∀ (rows : List CsvRow) (st0 st : IngestState),
      processRowsFrom db st0 rows = some st →
      st0.processed.Nodup → st.processed.Nodup := by
  intro rows
  induction rows with
  | nil =>
      intro st0 st h h0
      unfold processRowsFrom at h
      injection h with h1
      rw [← h1]
      exact h0
  | cons r rs ih =>
      intro st0 st h h0
      unfold processRowsFrom at h
      cases hstep : stepRow db st0 r with
      | none => rw [hstep] at h; exact absurd h (by simp)
      | some st1 =>
          rw [hstep] at h
          refine ih st1 st h ?_
          obtain ⟨stA, hA, hB⟩ := stepRow_elim hstep
          obtain ⟨sa, -, -, -, -, -, hproc1⟩ := insertSample_char hB
          rw [hproc1]
          obtain ⟨-, hcase⟩ := insertSubject_char hA
          rcases hcase with ⟨-, rfl⟩ | ⟨hmem, sub, -, -, -, hprocA, -⟩
          · exact h0
          · rw [hprocA]
            simp [List.nodup_append, h0, hmem]

/-- The lockstep invariant survives the whole loop. -/
theorem processFrom_sync (db : Database) :
    ∀ (rows : List CsvRow) (st0 st : IngestState),
      processRowsFrom db st0 rows = some st →
      subjectIds st0.subjects = st0.processed →
      subjectIds st.subjects = st.processed := by
  intro rows
  induction rows with
  | nil =>
      intro st0 st h hs
      unfold processRowsFrom at h
      injection h with h1
      rw [← h1]
      exact hs
  | cons r rs ih =>
      intro st0 st h hs
      unfold processRowsFrom at h
      cases hstep : stepRow db st0 r with
      | none => rw [hstep] at h; exact absurd h (by simp)
      | some st1 =>
          rw [hstep] at h
          exact ih st1 st h (stepRow_sync hstep hs)

/-- First-occurrence semantics: every Subject row pending after the loop
either predates the processed rows or was parsed from the FIRST row
carrying its subject value; later rows with the same value insert and
overwrite nothing. -/
theorem processFrom_subjects (db : Database) :
    ∀ (rows : List CsvRow) (st0 st : IngestState),
      processRowsFrom db st0 rows = some st →
      ∀ s ∈ st.subjects, s ∈ st0.subjects ∨
        (s.subject_id ∉ st0.processed ∧
         ∃ r, rows.find? (fun row => row.subject == s.subject_id) = some r ∧
           parseSubject r = some s) := by
  intro rows
  induction rows with
  | nil =>
      intro st0 st h s hs
      unfold processRowsFrom at h
      injection h with h1
      rw [← h1] at hs
      exact Or.inl hs
  | cons r rs ih =>
      intro st0 st h s hs
      unfold processRowsFrom at h
      cases hstep : stepRow db st0 r with
      | none => rw [hstep] at h; exact absurd h (by simp)
      | some st1 =>
          rw [hstep] at h
          obtain ⟨stA, hA, hB⟩ := stepRow_elim hstep
          obtain ⟨sa, -, -, -, -, hsubs1, hproc1⟩ := insertSample_char hB
          obtain ⟨-, hcase⟩ := insertSubject_char hA
          rcases ih st1 st h s hs with hmem1 | ⟨hnin, r2, hfind, hpar⟩
          · rw [hsubs1] at hmem1
            rcases hcase with ⟨-, rfl⟩ | ⟨hnew, sub, hps, hid, -, -, hsubsA⟩
            · exact Or.inl hmem1
            · rw [hsubsA, List.mem_append, List.mem_singleton] at hmem1
              rcases hmem1 with hold | rfl
              · exact Or.inl hold
              · refine Or.inr ⟨hid ▸ hnew, r, ?_, hps⟩
                exact List.find?_cons_of_pos _ (by simp [hid])
          · rw [hproc1] at hnin
            have hsubA : r.subject ∈ stA.processed := insertSubject_processed_mem hA
            have hne : (r.subject == s.subject_id) = false := by
              by_contra hc
              rw [Bool.not_eq_false, beq_iff_eq] at hc
              exact hnin (hc ▸ hsubA)
            have hnin0 : s.subject_id ∉ st0.processed := by
              intro hc
              apply hnin
              rcases hcase with ⟨-, rfl⟩ | ⟨-, sub, -, -, -, hprocA, -⟩
              · exact hc
              · rw [hprocA, List.mem_append]
                exact Or.inl hc
            refine Or.inr ⟨hnin0, r2, ?_, hpar⟩
            rw [List.find?_cons_of_neg _ (by simp [hne])]
            exact hfind

theorem c4_witness :
    (meltStat dfC1).length = 5 * dfC1.length ∧
    (meltPart2 stW.samples).length = 5 * stW.samples.length ∧
    ((meltStat dfC1).map (fun l => (l.sample_id, l.population))).Nodup ∧
    ((meltPart2 stW.samples).map (fun l => (l.sample, l.population))).Nodup :=
  ⟨(c4_reshape_conservation dfC1 stW.samples).1,
   (c4_reshape_conservation dfC1 stW.samples).2.1,
   (c4_reshape_conservation dfC1 stW.samples).2.2.1 (by decide),
   (c4_reshape_conservation dfC1 stW.samples).2.2.2 (by decide)⟩

/-! ## Claim C6: subject de-duplication and one Sample per source row -/

/-- C6: a successful ingestion pass inserts one Sample row per source row
(in order, carrying the source sample identifiers), one Subject row per
distinct subject value (no repeated ids, covering exactly the subject
values of the file), and each Subject row is parsed from the FIRST source
row carrying its subject value, so later rows with the same value insert
no Subject row and overwrite nothing. -/
theorem c6_subject_dedup (db : Database) (rows : List CsvRow) (st : IngestState)
    (h : processRows db rows = some st) :
    st.samples.map (fun sa => sa.sample_id) = rows.map (fun r => r.sample) ∧
    (subjectIds st.subjects).Nodup ∧
    (∀ k, k ∈ subjectIds st.subjects ↔ k ∈ rows.map (fun r => r.subject)) ∧
    ∀ s ∈ st.subjects, ∃ r, rows.find? (fun row => row.subject == s.subject_id) = some r ∧
      parseSubject r = some s := by
  have hsync : subjectIds st.subjects = st.processed :=
    processFrom_sync db rows emptyIngest st h rfl
  refine ⟨?_, ?_, ?_, ?_⟩
  · have h1 := processFrom_sampleIds db rows emptyIngest st h
    simpa [emptyIngest] using h1
  · rw [hsync]
    exact processFrom_nodupProcessed db rows emptyIngest st h (by simp [emptyIngest])
  · intro k
    rw [hsync]
    have h1 := processFrom_processed db rows emptyIngest st h k
    simpa [emptyIngest] using h1
  · intro s hs
    rcases processFrom_subjects db rows emptyIngest st h s hs with hmem | ⟨-, r, hfind, hpar⟩
    · exact absurd hmem (by simp [emptyIngest])
    · exact ⟨r, hfind, hpar⟩

theorem c6_witness :
    stW2.samples.map (fun sa => sa.sample_id) = [rowW1, rowW2].map (fun r => r.sample) ∧
    (subjectIds stW2.subjects).Nodup ∧
    ("u1" ∈ subjectIds stW2.subjects ↔ "u1" ∈ [rowW1, rowW2].map (fun r => r.subject)) ∧
    ∃ r, [rowW1, rowW2].find? (fun row => row.subject == subjW.subject_id) = some r ∧
      parseSubject r = some subjW := by
  have h6 := c6_subject_dedup initialize_database [rowW1, rowW2] stW2 (by decide)
  exact ⟨h6.1, h6.2.1, h6.2.2.1 "u1", h6.2.2.2 subjW (by decide)⟩

/-! ## Claim C3: ingestion is transactional, all-or-nothing -/

/-- C3: one ingestion run either commits every Subject and Sample row
derived from the file (reporting success) or, on any row-level failure
(a non-numeric numeric field or a key violation), rolls the whole
transaction back and reports failure, leaving the store exactly as it
was; a strict non-empty subset is never the terminal state. -/
theorem c3_all_or_nothing (db : Database) (rows : List CsvRow) :
    ((load_data db rows).2 = false → (load_data db rows).1 = db) ∧
    ((load_data db rows).2 = true →
      ∃ st, processRows db rows = some st ∧
        (load_data db rows).1.subjects = db.subjects ++ st.subjects ∧
        (load_data db rows).1.samples = db.samples ++ st.samples ∧
        st.samples.map (fun sa => sa.sample_id) = rows.map (fun r => r.sample) ∧
        ∀ r ∈ rows, r.subject ∈ subjectIds (load_data db rows).1.subjects) := by
  unfold load_data
  cases hp : processRows db rows with
  | none =>
      exact ⟨fun _ => rfl, fun hc => absurd hc (by simp)⟩
  | some st =>
      refine ⟨fun hc => absurd hc (by simp), fun _ => ⟨st, rfl, rfl, rfl, ?_, ?_⟩⟩
      · have h1 := processFrom_sampleIds db rows emptyIngest st hp
        simpa [emptyIngest] using h1
      · intro r hr
        have hsync := processFrom_sync db rows emptyIngest st hp rfl
        have hmem : r.subject ∈ st.processed :=
          (processFrom_processed db rows emptyIngest st hp r.subject).2
            (Or.inr (List.mem_map.2 ⟨r, hr, rfl⟩))
        rw [← hsync] at hmem
        simp only [subjectIds, List.map_append, List.mem_append]
        right
        exact hmem

theorem c3_witness :
    (load_data initialize_database [rowW1, rowBadW]).2 = false ∧
    (load_data initialize_database [rowW1, rowBadW]).1 = initialize_database ∧
    (∃ st, processRows initialize_database [rowW1, rowW2] = some st ∧
      (load_data initialize_database [rowW1, rowW2]).1.subjects =
        initialize_database.subjects ++ st.subjects ∧
      (load_data initialize_database [rowW1, rowW2]).1.samples =
        initialize_database.samples ++ st.samples ∧
      st.samples.map (fun sa => sa.sample_id) = [rowW1, rowW2].map (fun r => r.sample) ∧
      ∀ r ∈ [rowW1, rowW2], r.subject ∈
        subjectIds (load_data initialize_database [rowW1, rowW2]).1.subjects) :=
  ⟨by decide,
   (c3_all_or_nothing initialize_database [rowW1, rowBadW]).1 (by decide),
   (c3_all_or_nothing initialize_database [rowW1, rowW2]).2 (by decide)⟩

/-! ## Claim C7: referential integrity at every point of the pass -/

/-- The referential-integrity invariant is preserved along the whole
trace of the ingestion loop, given any starting state satisfying it
whose processed set mirrors its pending Subject rows. -/
theorem ingestTraceAux_refint (db : Database) :
    ∀ (rows : List CsvRow) (st0 : IngestState),
      subjectIds st0.subjects = st0.processed →
      (∀ sa ∈ st0.samples, sa.subject_id ∈ subjectIds st0.subjects) →
      ∀ st ∈ ingestTraceAux db st0 rows,
        ∀ sa ∈ st.samples, sa.subject_id ∈ subjectIds st.subjects := by
  intro rows
  induction rows with
  | nil =>
      intro st0 hs h0 st hst
      unfold ingestTraceAux at hst
      rw [List.mem_singleton] at hst
      subst hst
      exact h0
  | cons r rs ih =>
      intro st0 hs h0 st hst
      unfold ingestTraceAux at hst
      rcases List.mem_cons.1 hst with rfl | hst2
      · exact h0
      · cases hstep : stepRow db st0 r with
        | none => rw [hstep] at hst2; simp at hst2
        | some st1 =>
            rw [hstep] at hst2
            refine ih st1 (stepRow_sync hstep hs) ?_ st hst2
            obtain ⟨stA, hA, hB⟩ := stepRow_elim hstep
            obtain ⟨sa1, -, -, hsid, hsamp1, hsubs1, -⟩ := insertSample_char hB
            intro sa hsa
            rw [hsamp1, List.mem_append, List.mem_singleton] at hsa
            rw [hsubs1]
            obtain ⟨hsampA, hcase⟩ := insertSubject_char hA
            rcases hsa with hold | rfl
            · rw [hsampA] at hold
              have hin := h0 sa hold
              rcases hcase with ⟨-, heqA⟩ | ⟨-, sub, -, -, -, -, hsubsA⟩
              · rw [heqA]
                exact hin
              · rw [hsubsA]
                simp only [subjectIds, List.map_append, List.mem_append]
                left
                exact hin
            · have hmemA : r.subject ∈ stA.processed := insertSubject_processed_mem hA
              have hsyncA : subjectIds stA.subjects = stA.processed := insertSubject_sync hA hs
              rw [hsid, hsyncA]
              exact hmemA

/-- C7: at every point during an ingestion pass (and hence also at its
end), every pending Sample row references a Subject row already inserted
in the same pass: the Subject insertion for a subject value strictly
precedes every Sample insertion referencing it. -/
theorem c7_referential_integrity (db : Database) (rows : List CsvRow) (st : IngestState)
    (h : st ∈ ingestTrace db rows) :
    ∀ sa ∈ st.samples, sa.subject_id ∈ subjectIds st.subjects :=
  ingestTraceAux_refint db rows emptyIngest rfl (by simp [emptyIngest]) st h

theorem c7_witness : sampW1.subject_id ∈ subjectIds stW.subjects :=
  c7_referential_integrity initialize_database [rowW1, rowW2] stW (by decide) sampW1 (by decide)

/-! ## Claim C8: zero total count gives NaN, excluded from the test -/

/-- C8: a reshaped row whose total count is zero (with the non-negative
counts the data model stipulates) gets percentage `0 / 0`, which pandas
evaluates to NaN rather than crashing, and the omit policy of the t-test
drops exactly such missing values from the group input instead of
treating them as zero. -/
theorem c8_zero_total (df : List JoinedRow)
    (hnn : ∀ r ∈ df, 0 ≤ r.b_cell ∧ 0 ≤ r.cd8_t_cell ∧ 0 ≤ r.cd4_t_cell ∧
      0 ≤ r.nk_cell ∧ 0 ≤ r.monocyte)
    (l : LongRow) (hl : l ∈ meltStat (filterCohort df)) (h0 : l.total_count = 0) :
    percentage l = PFloat.nan ∧
    ∀ (pre post : List PFloat),
      omitMissing (pre ++ percentage l :: post) = omitMissing (pre ++ post) := by
  unfold meltStat at hl
  rw [List.mem_flatMap] at hl
  obtain ⟨pop, -, hl2⟩ := hl
  rw [List.mem_map] at hl2
  obtain ⟨r, hr, hlr⟩ := hl2
  have hrdf : r ∈ df := by
    unfold filterCohort at hr
    exact List.mem_of_mem_filter hr
  obtain ⟨hb, h8, h4, hk, hm⟩ := hnn r hrdf
  subst hlr
  have htc : totalCount r = 0 := h0
  have hzero : r.b_cell = 0 ∧ r.cd8_t_cell = 0 ∧ r.cd4_t_cell = 0 ∧
      r.nk_cell = 0 ∧ r.monocyte = 0 := by
    unfold totalCount at htc
    omega
  have hcount : getPop r pop = 0 := by
    unfold getPop
    split_ifs <;> simp [hzero.1, hzero.2.1, hzero.2.2.1, hzero.2.2.2.1, hzero.2.2.2.2]
  have hpn : percentage (LongRow.mk r.sample_id r.response (totalCount r) pop (getPop r pop))
      = PFloat.nan := by
    unfold percentage
    simp [hcount, htc, pdivQ]
  refine ⟨hpn, fun pre post => ?_⟩
  rw [hpn]
  simp [omitMissing, List.filterMap_append]

theorem c8_witness :
    percentage lC8 = PFloat.nan ∧
    omitMissing ([PFloat.val 3] ++ percentage lC8 :: [PFloat.val 4]) =
      omitMissing ([PFloat.val 3] ++ [PFloat.val 4]) := by
  have h8 := c8_zero_total dfC8 (by decide) lC8 (by decide) (by decide)
  exact ⟨h8.1, h8.2 [PFloat.val 3] [PFloat.val 4]⟩

/-! ## Claim C2 (corrected): only two of the three summaries count
distinct subjects -/

theorem mem_insertSorted {a s : String} {ts : List String} :
    a ∈ insertSorted s ts ↔ a = s ∨ a ∈ ts := by
  induction ts with
  | nil => simp [insertSorted]
  | cons t ts ih =>
      unfold insertSorted
      by_cases h : s ≤ t
      · rw [if_pos h]
        simp [List.mem_cons]
      · rw [if_neg h]
        simp only [List.mem_cons, ih]
        tauto

theorem mem_sortStrings {a : String} {xs : List String} :
    a ∈ sortStrings xs ↔ a ∈ xs := by
  induction xs with
  | nil => simp [sortStrings]
  | cons x xs ih =>
      unfold sortStrings
      rw [mem_insertSorted, ih]
      simp

theorem mem_groupKeys {a : String} {xs : List String} :
    a ∈ groupKeys xs ↔ a ∈ xs := by
  unfold groupKeys
  rw [mem_sortStrings, List.mem_dedup]

/-- Looking a present group label up in a summary built over distinct
keys returns the aggregated value of that label. -/
theorem countFor_map (keys : List String) (g : String → Nat) (k : String) (hk : k ∈ keys) :
    countFor (keys.map (fun k0 => (k0, g k0))) k = some (g k) := by
  induction keys with
  | nil => cases hk
  | cons k0 ks ih =>
      rw [List.map_cons]
      simp only [countFor]
      by_cases h : k0 = k
      · subst h
        rw [List.find?_cons_of_pos _ (by simp)]
        rfl
      · rw [List.find?_cons_of_neg _ (by simp [h])]
        rcases List.mem_cons.1 hk with rfl | hk2
        · exact absurd rfl h
        · simpa only [countFor] using ih hk2

/-- C2 counterexample: one subject contributing two baseline samples in
project p1 is reported with project count 2 (rows), although the cohort
has exactly one distinct subject; the claim that all three summaries
count distinct subjects is false. -/
theorem c2_counterexample :
    run_subset_analysis dfC2 =
      SubsetReport.summary [("p1", 2)] [("yes", 1)] [("F", 1)] ∧
    nunique ((baselineFilter dfC2).map (fun r => r.subject_id)) = 1 :=
  ⟨by decide, by decide⟩

/-- C2 amended: the per-response and per-sex summaries report the number
of DISTINCT subjects per category, but the per-project summary reports
the number of ROWS (samples) per project; accordingly an extra sample of
an already-present subject value leaves a distinct count unchanged while
raising a row count by one. -/
theorem c2_unique_subject_aggregation (l : List SubsetRow) (k : String) :
    (k ∈ l.map (fun r => r.response) →
      countFor (groupByNunique (fun r => r.response) l) k =
        some (nunique ((l.filter (fun r => r.response == k)).map (fun r => r.subject_id)))) ∧
    (k ∈ l.map (fun r => r.sex) →
      countFor (groupByNunique (fun r => r.sex) l) k =
        some (nunique ((l.filter (fun r => r.sex == k)).map (fun r => r.subject_id)))) ∧
    (k ∈ l.map (fun r => r.project) →
      countFor (groupBySize (fun r => r.project) l) k =
        some ((l.filter (fun r => r.project == k)).length)) ∧
    (∀ (xs : List String) (x : String), x ∈ xs →
      nunique (x :: xs) = nunique xs ∧ (x :: xs).length = xs.length + 1) := by
  refine ⟨?_, ?_, ?_, ?_⟩
  · intro hk
    unfold groupByNunique
    exact countFor_map _ _ k (mem_groupKeys.2 hk)
  · intro hk
    unfold groupByNunique
    exact countFor_map _ _ k (mem_groupKeys.2 hk)
  · intro hk
    unfold groupBySize
    exact countFor_map _ _ k (mem_groupKeys.2 hk)
  · intro xs x hx
    exact ⟨by simp [nunique, List.dedup_cons_of_mem hx], by simp⟩

theorem c2_witness :
    countFor (groupByNunique (fun r => r.response) dfW2) "grp" = some 1 ∧
    countFor (groupByNunique (fun r => r.sex) dfW2) "grp" = some 1 ∧
    countFor (groupBySize (fun r => r.project) dfW2) "grp" = some 2 ∧
    (nunique ("u1" :: ["u1"]) = nunique ["u1"] ∧
      ("u1" :: ["u1"]).length = ["u1"].length + 1) := by
  have h2 := c2_unique_subject_aggregation dfW2 "grp"
  exact ⟨(h2.1 (by decide)).trans (by decide),
         (h2.2.1 (by decide)).trans (by decide),
         (h2.2.2.1 (by decide)).trans (by decide),
         h2.2.2.2 ["u1"] "u1" (by decide)⟩

end CellCounts
